import Mathlib

/-!
Verification of the Open Farm Game composition root (`app.js`) and the
crop-simulation core it wires together.

The visible source is the composition root `app.js`: configuration loading,
the express middleware pipeline and route table, and the `async.waterfall`
startup sequence.  The crop state machine (`models/crop.js`), the CropType
registry (`models/croptype.js`) and the Update Engine (`lib/updater.js`) are
required from the composition root but their files are not part of the
visible source; those parts are modelled from the specification, and each
such definition says so in its doc comment.
-/

namespace OpenFarmGame

/-! ## Crop data model -/

/-- Lifecycle phase of a crop.  Modelled from the spec: the crop model file
is not in the visible source; the spec fixes the phase set
{Growing, NeedsWater, ReadyToHarvest, Withered}. -/
inductive Phase
  | Growing
  | NeedsWater
  | ReadyToHarvest
  | Withered
deriving DecidableEq, Repr

/-- A crop species entry in the CropType registry.  Modelled from the spec:
`models/croptype.js` is not in the visible source; the spec lists the
attributes (name, growth duration, watering interval, withering grace
period, yield). -/
structure CropType where
  name : String
  growthDuration : Nat
  wateringInterval : Nat
  gracePeriod : Nat
  yieldValue : Nat
deriving DecidableEq, Repr

/-- A planted crop.  Modelled from the spec: `models/crop.js` is not in the
visible source; the spec lists the attributes (CropType reference, planting
timestamp, last-watered timestamp, current phase, and the reminder dedup
flag). -/
structure Crop where
  id : Nat
  ctype : CropType
  planted : Nat
  watered : Nat
  phase : Phase
  reminded : Bool
deriving DecidableEq, Repr

/-- Maturity deadline: planting timestamp + CropType growth duration. -/
def Crop.maturityDeadline (c : Crop) : Nat :=
  c.planted + c.ctype.growthDuration

/-- Start of the watering-due window: last-watered timestamp + the
CropType's watering interval. -/
def Crop.wateringDue (c : Crop) : Nat :=
  c.watered + c.ctype.wateringInterval

/-- Withering deadline: last-watered timestamp + watering interval + the
withering grace period. -/
def Crop.witheringDeadline (c : Crop) : Nat :=
  c.watered + c.ctype.wateringInterval + c.ctype.gracePeriod

/-- A notification event queued for the owning farmer. -/
inductive FarmEvent
  | ready (cropId : Nat)
  | withered (cropId : Nat)
  | needsWater (cropId : Nat)
deriving DecidableEq, Repr

/-- Whether the phase is one of the two terminal automatic states. -/
def Phase.terminal : Phase → Bool
  | .ReadyToHarvest => true
  | .Withered => true
  | _ => false

/-- The crop state machine transition rule, evaluated against `now`.
Modelled from the spec: `models/crop.js` is not in the visible source; the
spec gives the rule as an ordered case list:
1. if already ReadyToHarvest or Withered, no automatic transition;
2. else if now ≥ maturity deadline, phase becomes ReadyToHarvest and a
   "ready" notification is emitted;
3. else if now ≥ withering deadline, phase becomes Withered and a
   "withered" notification is emitted;
4. else if now is within the watering-due window, phase becomes NeedsWater
   and a reminder is emitted at most once per window (dedup flag);
5. else the phase stays Growing. -/
def reconcile (c : Crop) (now : Nat) : Crop × List FarmEvent :=
  if c.phase.terminal then
    (c, [])
  else if c.maturityDeadline ≤ now then
    ({ c with phase := .ReadyToHarvest }, [.ready c.id])
  else if c.witheringDeadline ≤ now then
    ({ c with phase := .Withered }, [.withered c.id])
  else if c.wateringDue ≤ now then
    ({ c with phase := .NeedsWater, reminded := true },
      if c.reminded then [] else [.needsWater c.id])
  else
    (c, [])

/-- The Carrot species used by the spec's worked scenarios: growth duration
60, watering interval 30, grace period 10. -/
def carrot : CropType :=
  { name := "Carrot", growthDuration := 60, wateringInterval := 30,
    gracePeriod := 10, yieldValue := 5 }

/-- Repeated automatic reconciliation: the phase-advancement part of a
sequence of Update Engine sweeps hitting the same crop at the given times,
with no user mutation in between. -/
def reconcileAll (c : Crop) : List Nat → Crop
  | [] => c
  | now :: rest => reconcileAll (reconcile c now).1 rest

/-! ## CropType registry seeding -/

/-- Modelled from the spec: the fixed CropType seed list inserted by
`CropType.initialData` (the spec's configuration section lists name, growth
duration, watering interval and yield per entry; the Carrot entry is the
one the spec's scenarios use). -/
def initialCropTypes : List CropType :=
  [carrot,
   { name := "Corn", growthDuration := 120, wateringInterval := 60,
     gracePeriod := 20, yieldValue := 12 },
   { name := "Tomato", growthDuration := 90, wateringInterval := 45,
     gracePeriod := 15, yieldValue := 8 }]

/-- Modelled from the spec: `CropType.initialData` (called from app.js line
98, defined in `models/croptype.js` which is not in the visible source).
The spec describes it as checking whether the catalog is already populated
and inserting the fixed seed list only when it is empty. -/
def initialData (catalog : List CropType) : List CropType :=
  if catalog.isEmpty then initialCropTypes else catalog

/-! ## Update Engine sweep -/

/-- Persistence-layer error kinds recovered or surfaced by the core. -/
inductive DbError
  | notFoundError
  | conflictError
deriving DecidableEq, Repr

/-- Modelled from the spec: one crop's processing inside a sweep
(`lib/updater.js` is not in the visible source).  `saveFails c.id` says the
per-crop persistence step fails for that crop; the sweep logs and skips it
(`none`), otherwise the crop is reconciled against the sweep's `now`. -/
def sweepCrop (saveFails : Nat → Bool) (now : Nat) (c : Crop) :
    Option (Crop × List FarmEvent) :=
  if saveFails c.id then none else some (reconcile c now)

/-- Modelled from the spec: the per-crop loop of a sweep; every crop of the
working set is attempted independently, a failed one is skipped without
aborting the rest. -/
def sweepCrops (saveFails : Nat → Bool) (now : Nat) :
    List Crop → List (Option (Crop × List FarmEvent))
  | [] => []
  | c :: rest => sweepCrop saveFails now c :: sweepCrops saveFails now rest

/-- Modelled from the spec: one Update Engine sweep.  A failure of the
active-crop query itself is sweep-fatal for the cycle; otherwise every crop
of the working set is processed. -/
def sweep (saveFails : Nat → Bool) (queryResult : Except DbError (List Crop))
    (now : Nat) : Except DbError (List (Option (Crop × List FarmEvent))) :=
  match queryResult with
  | .error e => .error e
  | .ok crops => .ok (sweepCrops saveFails now crops)

/-- Modelled from the spec: the scheduler running one sweep per interval;
each cycle is given its active-crop query result and its `now`, and runs
regardless of the outcome of earlier cycles. -/
def runSweeps (saveFails : Nat → Bool) :
    List (Except DbError (List Crop) × Nat) →
      List (Except DbError (List (Option (Crop × List FarmEvent))))
  | [] => []
  | (q, now) :: rest => sweep saveFails q now :: runSweeps saveFails rest

/-! ## Auth middleware and route table (app.js lines 143-247) -/

/-- A farmer account; the middleware only reads its `id` (app.js line 220). -/
structure Farmer where
  id : String
deriving DecidableEq, Repr

/-- A plot; the middleware reads its identifier and `owner` (app.js lines
193, 220). -/
structure Plot where
  uuid : String
  owner : String
deriving DecidableEq, Repr

/-- The persisted entities the middleware chain looks up. -/
structure AppDb where
  farmers : List Farmer
  plots : List Plot
deriving Repr

/-- The error outcomes of the middleware chain, one per `next(new Error(...))`
site in app.js (plus the two lookup failures propagated by `next(err)`). -/
inductive AppError
  | userIsRequired
  | alreadyLoggedIn
  | mustBeOwner
  | farmerNotFound
  | plotNotFound
deriving DecidableEq, Repr

/-- The request data the guarded routes read: the session's farmerID and the
`:plot` route parameter. -/
structure Req where
  sessionFarmerID : Option String
  plotParam : String
deriving DecidableEq, Repr

/-- `Farmer.get` as seen from app.js: lookup by id, `NotFoundError` surfaced
as an error to `next`. -/
def farmerGet (db : AppDb) (fid : String) : Except AppError Farmer :=
  match db.farmers.find? (fun f => f.id == fid) with
  | some f => .ok f
  | none => .error .farmerNotFound

/-- `Plot.get` as seen from app.js (reqPlot middleware, lines 191-203). -/
def plotGet (db : AppDb) (uuid : String) : Except AppError Plot :=
  match db.plots.find? (fun p => p.uuid == uuid) with
  | some p => .ok p
  | none => .error .plotNotFound

/-- The userAuth middleware (app.js lines 143-161): resolves `req.user` from
the session's farmerID; with no session farmerID, `req.user` stays null and
the chain continues. -/
def userAuth (db : AppDb) (req : Req) : Except AppError (Option Farmer) :=
  match req.sessionFarmerID with
  | none => .ok none
  | some fid =>
    match farmerGet db fid with
    | .error e => .error e
    | .ok f => .ok (some f)

/-- The userRequired middleware (app.js lines 167-173): errors with "User is
required" when `req.user` is null. -/
def userRequired (u : Option Farmer) : Except AppError Farmer :=
  match u with
  | none => .error .userIsRequired
  | some f => .ok f

/-- The userIsOwner middleware (app.js lines 219-225): errors with "Must be
the owner" unless `req.user.id == req.plot.owner`. -/
def userIsOwner (u : Farmer) (p : Plot) : Except AppError Unit :=
  if u.id = p.owner then .ok () else .error .mustBeOwner

/-- The shared chain userAuth, userRequired, reqPlot, userIsOwner guarding
the plant/tearup/water/harvest routes (app.js lines 238-245).  The route
handlers live in `./routes`, outside the visible source, so the handler is
an abstract parameter; it only runs when every middleware passed. -/
def ownerPlotRoute {α : Type} (db : AppDb) (req : Req)
    (handler : Farmer → Plot → Except AppError α) : Except AppError α :=
  match userAuth db req with
  | .error e => .error e
  | .ok u =>
    match userRequired u with
    | .error e => .error e
    | .ok farmer =>
      match plotGet db req.plotParam with
      | .error e => .error e
      | .ok plot =>
        match userIsOwner farmer plot with
        | .error e => .error e
        | .ok _ => handler farmer plot

/-- The chain userAuth, userRequired guarding POST /logout and POST
/buy-plot (app.js lines 232 and 247). -/
def userOnlyRoute {α : Type} (db : AppDb) (req : Req)
    (handler : Farmer → Except AppError α) : Except AppError α :=
  match userAuth db req with
  | .error e => .error e
  | .ok u =>
    match userRequired u with
    | .error e => .error e
    | .ok farmer => handler farmer

/-- POST /plot/:plot/plant (app.js line 239). -/
def postPlant {α : Type} (db : AppDb) (req : Req)
    (handler : Farmer → Plot → Except AppError α) : Except AppError α :=
  ownerPlotRoute db req handler

/-- POST /plot/:plot/tearup (app.js line 241). -/
def postTearUp {α : Type} (db : AppDb) (req : Req)
    (handler : Farmer → Plot → Except AppError α) : Except AppError α :=
  ownerPlotRoute db req handler

/-- POST /plot/:plot/water (app.js line 243). -/
def postWater {α : Type} (db : AppDb) (req : Req)
    (handler : Farmer → Plot → Except AppError α) : Except AppError α :=
  ownerPlotRoute db req handler

/-- POST /plot/:plot/harvest (app.js line 245). -/
def postHarvest {α : Type} (db : AppDb) (req : Req)
    (handler : Farmer → Plot → Except AppError α) : Except AppError α :=
  ownerPlotRoute db req handler

/-- POST /buy-plot (app.js line 247). -/
def postBuyPlot {α : Type} (db : AppDb) (req : Req)
    (handler : Farmer → Except AppError α) : Except AppError α :=
  userOnlyRoute db req handler

/-- POST /logout (app.js line 232). -/
def postLogout {α : Type} (db : AppDb) (req : Req)
    (handler : Farmer → Except AppError α) : Except AppError α :=
  userOnlyRoute db req handler

/-! ## Startup sequence (app.js lines 86-311) -/

/-- The externally visible startup actions of the `async.waterfall` chain:
`db.connect` (step 1), `CropType.initialData` (step 2), `app.updater.start()`
and `app.listen(...)` (both inside step 3, in that order). -/
inductive StartupAction
  | connectDb
  | seedCropTypes
  | startUpdater
  | listenHttp
deriving DecidableEq, Repr

/-- Embedding of the `async.waterfall` call (app.js lines 86-311): each step
runs only when the previous one reported success; a step that reports an
error skips all remaining steps and surfaces the error to the final
callback.  The result is the list of startup actions that completed, paired
with the error that stopped the chain, if any. -/
def startupTrace {E : Type} (connectResult : Except E Unit)
    (seedResult : Except E Unit) : List StartupAction × Option E :=
  match connectResult with
  | .error e => ([], some e)
  | .ok _ =>
    match seedResult with
    | .error e => ([.connectDb], some e)
    | .ok _ => ([.connectDb, .seedCropTypes, .startUpdater, .listenHttp], none)

/-! ## Configuration (app.js lines 40-62 and 127) -/

/-- The shape of `config.params` as far as app.js manipulates it: the data
directory for the disk driver. -/
structure Params where
  dir : Option String
deriving DecidableEq, Repr

/-- The keys of /etc/openfarmgame.json the composition root reads; every
field is optional since the file may omit any key. -/
structure ConfigFile where
  port : Option Nat
  address : Option String
  hostname : Option String
  driver : Option String
  name : Option String
  description : Option String
  params : Option Params
  sessionSecret : Option String
deriving DecidableEq, Repr

/-- The resolved configuration after merging with the built-in defaults. -/
structure Config where
  port : Nat
  address : String
  hostname : String
  driver : String
  name : String
  description : String
  params : Option Params
  sessionSecret : Option String
deriving DecidableEq, Repr

/-- The built-in `defaults` object (app.js lines 40-47). -/
def defaults : Config :=
  { port := 4000, address := "localhost", hostname := "localhost",
    driver := "disk", name := "Open Farm Game",
    description := "The social game that brings the excitement of subsistence farming to the social internet.",
    params := none, sessionSecret := none }

/-- `_.defaults(parsedFile, defaults)` (app.js line 50): a key present in
the file wins; an absent key takes the default.  `params` and
`sessionSecret` have no entry in `defaults`, so they pass through. -/
def mergeDefaults (f : ConfigFile) : Config :=
  { port := f.port.getD defaults.port,
    address := f.address.getD defaults.address,
    hostname := f.hostname.getD defaults.hostname,
    driver := f.driver.getD defaults.driver,
    name := f.name.getD defaults.name,
    description := f.description.getD defaults.description,
    params := f.params,
    sessionSecret := f.sessionSecret }

/-- Embedding of app.js lines 49-54: when /etc/openfarmgame.json exists its
parsed contents are merged over the defaults, otherwise the defaults are
used as-is. -/
def loadConfig (file : Option ConfigFile) : Config :=
  match file with
  | none => defaults
  | some f => mergeDefaults f

/-- Embedding of app.js lines 56-62: when no params are configured, the disk
driver gets the default data directory and any other driver gets empty
params. -/
def ensureParams (c : Config) : Config :=
  match c.params with
  | some _ => c
  | none =>
    if c.driver = "disk" then
      { c with params := some { dir := some "/var/lib/openfarmgame/" } }
    else
      { c with params := some { dir := none } }

/-- Embedding of app.js line 127: the secret handed to `express.session` is
`config.sessionSecret` when the config object has that key, and the fixed
string "insecure" otherwise. -/
def sessionSecretOf (c : Config) : String :=
  match c.sessionSecret with
  | some s => s
  | none => "insecure"

/-! ## Theorems -/

/-- Branch characterization: a terminal crop is untouched. -/
theorem reconcile_of_terminal (c : Crop) (now : Nat)
    (h : c.phase.terminal = true) : reconcile c now = (c, []) := by
  simp [reconcile, h]

/-- Branch characterization: a non-terminal crop past maturity ripens. -/
theorem reconcile_of_mature (c : Crop) (now : Nat)
    (h1 : c.phase.terminal = false) (h2 : c.maturityDeadline ≤ now) :
    reconcile c now =
      ({ c with phase := .ReadyToHarvest }, [.ready c.id]) := by
  simp [reconcile, h1, h2]

/-- Branch characterization: a non-terminal crop past withering (but not
maturity) withers. -/
theorem reconcile_of_withering (c : Crop) (now : Nat)
    (h1 : c.phase.terminal = false) (h2 : ¬ c.maturityDeadline ≤ now)
    (h3 : c.witheringDeadline ≤ now) :
    reconcile c now = ({ c with phase := .Withered }, [.withered c.id]) := by
  simp [reconcile, h1, h2, h3]

/-- Branch characterization: a non-terminal crop inside the watering-due
window needs water; the reminder fires only when the dedup flag is clear. -/
theorem reconcile_of_needsWater (c : Crop) (now : Nat)
    (h1 : c.phase.terminal = false) (h2 : ¬ c.maturityDeadline ≤ now)
    (h3 : ¬ c.witheringDeadline ≤ now) (h4 : c.wateringDue ≤ now) :
    reconcile c now = ({ c with phase := .NeedsWater, reminded := true },
      if c.reminded then [] else [.needsWater c.id]) := by
  simp [reconcile, h1, h2, h3, h4]

/-- Branch characterization: before every deadline nothing happens. -/
theorem reconcile_of_growing (c : Crop) (now : Nat)
    (h1 : c.phase.terminal = false) (h2 : ¬ c.maturityDeadline ≤ now)
    (h3 : ¬ c.witheringDeadline ≤ now) (h4 : ¬ c.wateringDue ≤ now) :
    reconcile c now = (c, []) := by
  simp [reconcile, h1, h2, h3, h4]

/-- C1: for every crop past its maturity deadline that is not already
ReadyToHarvest or Withered, the transition rule sets the phase to
ReadyToHarvest and emits exactly the "ready" notification; no Withered
transition and no "withered" notification occur, even when the withering
deadline has also passed, since the maturity case is checked first. -/
theorem reconcile_maturity_beats_withering (c : Crop) (now : Nat)
    (hr : c.phase ≠ .ReadyToHarvest) (hw : c.phase ≠ .Withered)
    (hmat : c.maturityDeadline ≤ now) :
    (reconcile c now).1.phase = .ReadyToHarvest ∧
    (reconcile c now).2 = [.ready c.id] ∧
    (reconcile c now).1.phase ≠ .Withered ∧
    FarmEvent.withered c.id ∉ (reconcile c now).2 := by
  have hterm : c.phase.terminal = false := by
    cases hph : c.phase <;> simp_all [Phase.terminal]
  simp [reconcile_of_mature c now hterm hmat]

/-- C1 witness: the spec's Carrot scenario at t = 61, where the withering
deadline (40) has also lapsed yet the crop becomes ReadyToHarvest with a
single "ready" notification. -/
theorem reconcile_maturity_beats_withering_witness :
    (reconcile { id := 1, ctype := carrot, planted := 0, watered := 0,
                 phase := .NeedsWater, reminded := true } 61).1.phase =
        .ReadyToHarvest ∧
    (reconcile { id := 1, ctype := carrot, planted := 0, watered := 0,
                 phase := .NeedsWater, reminded := true } 61).2 =
        [.ready 1] ∧
    (reconcile { id := 1, ctype := carrot, planted := 0, watered := 0,
                 phase := .NeedsWater, reminded := true } 61).1.phase ≠
        .Withered ∧
    FarmEvent.withered 1 ∉
      (reconcile { id := 1, ctype := carrot, planted := 0, watered := 0,
                   phase := .NeedsWater, reminded := true } 61).2 :=
  reconcile_maturity_beats_withering
    { id := 1, ctype := carrot, planted := 0, watered := 0,
      phase := .NeedsWater, reminded := true } 61
    (by decide) (by decide) (by decide)

/-- C4: applying the transition rule twice in succession against the same
`now`, with no other mutation in between, yields the same phase as applying
it once. -/
theorem reconcile_idempotent (c : Crop) (now : Nat) :
    (reconcile (reconcile c now).1 now).1.phase = (reconcile c now).1.phase := by
  by_cases h1 : c.phase.terminal = true
  · simp [reconcile_of_terminal c now h1]
  · rw [Bool.not_eq_true] at h1
    by_cases h2 : c.maturityDeadline ≤ now
    · rw [reconcile_of_mature c now h1 h2]
      simp [reconcile_of_terminal { c with phase := .ReadyToHarvest } now rfl]
    · by_cases h3 : c.witheringDeadline ≤ now
      · rw [reconcile_of_withering c now h1 h2 h3]
        simp [reconcile_of_terminal { c with phase := .Withered } now rfl]
      · by_cases h4 : c.wateringDue ≤ now
        · rw [reconcile_of_needsWater c now h1 h2 h3 h4]
          simp [reconcile_of_needsWater
            { c with phase := .NeedsWater, reminded := true } now
            (by simp [Phase.terminal])
            (by simpa [Crop.maturityDeadline] using h2)
            (by simpa [Crop.witheringDeadline] using h3)
            (by simpa [Crop.wateringDue] using h4)]
        · simp [reconcile_of_growing c now h1 h2 h3 h4]

/-- C5: once a crop is ReadyToHarvest or Withered, no automatic
(time-driven) transition changes it again: a single reconcile leaves the
crop untouched and emits nothing, and so does any sequence of sweeps. -/
theorem terminal_phase_is_final (c : Crop)
    (hterm : c.phase = .ReadyToHarvest ∨ c.phase = .Withered) :
    (∀ now : Nat, reconcile c now = (c, [])) ∧
    (∀ nows : List Nat, reconcileAll c nows = c) := by
  have ht : c.phase.terminal = true := by
    rcases hterm with h | h <;> simp [h, Phase.terminal]
  have hone : ∀ now : Nat, reconcile c now = (c, []) := by
    intro now
    simp [reconcile, ht]
  refine ⟨hone, ?_⟩
  intro nows
  induction nows with
  | nil => rfl
  | cons t rest ih => simp [reconcileAll, hone t, ih]

/-- C5 witness: a ReadyToHarvest Carrot crop is left unchanged by a single
reconcile at t = 100 and by a sequence of three later sweeps. -/
theorem terminal_phase_is_final_witness :
    reconcile { id := 2, ctype := carrot, planted := 0, watered := 0,
                phase := .ReadyToHarvest, reminded := false } 100 =
      ({ id := 2, ctype := carrot, planted := 0, watered := 0,
         phase := .ReadyToHarvest, reminded := false }, []) ∧
    reconcileAll { id := 2, ctype := carrot, planted := 0, watered := 0,
                   phase := .ReadyToHarvest, reminded := false }
        [100, 200, 300] =
      { id := 2, ctype := carrot, planted := 0, watered := 0,
        phase := .ReadyToHarvest, reminded := false } :=
  ⟨(terminal_phase_is_final
      { id := 2, ctype := carrot, planted := 0, watered := 0,
        phase := .ReadyToHarvest, reminded := false } (Or.inl rfl)).1 100,
   (terminal_phase_is_final
      { id := 2, ctype := carrot, planted := 0, watered := 0,
        phase := .ReadyToHarvest, reminded := false } (Or.inl rfl)).2
     [100, 200, 300]⟩

/-- Helper: the per-crop loop preserves the length of the working set. -/
theorem sweepCrops_length (saveFails : Nat → Bool) (now : Nat) :
    ∀ crops : List Crop,
      (sweepCrops saveFails now crops).length = crops.length := by
  intro crops
  induction crops with
  | nil => rfl
  | cons d ds ih => simp [sweepCrops, ih]

/-- Helper: every crop of the working set whose persistence step succeeds
contributes its reconcile result to the sweep output. -/
theorem mem_sweepCrops (saveFails : Nat → Bool) (now : Nat) :
    ∀ crops : List Crop, ∀ c ∈ crops, saveFails c.id = false →
      some (reconcile c now) ∈ sweepCrops saveFails now crops := by
  intro crops
  induction crops with
  | nil =>
    intro c hc
    cases hc
  | cons d ds ih =>
    intro c hc hok
    rcases List.mem_cons.mp hc with h | h
    · subst h
      simp [sweepCrops, sweepCrop, hok]
    · exact List.mem_cons.mpr (Or.inr (ih c h hok))

/-- C7: a persistence failure for one crop is recovered locally (that crop
is skipped) while every remaining crop of the sweep's working set is still
processed; only a failure of the active-crop query aborts the sweep, and
the next scheduled cycle runs unaffected. -/
theorem sweep_isolates_per_crop_failures (saveFails : Nat → Bool)
    (crops : List Crop) (now : Nat) (e : DbError)
    (rest : List (Except DbError (List Crop) × Nat)) :
    (sweepCrops saveFails now crops).length = crops.length ∧
    (∀ c ∈ crops, saveFails c.id = false →
        some (reconcile c now) ∈ sweepCrops saveFails now crops) ∧
    (∀ c ∈ crops, saveFails c.id = true →
        none ∈ sweepCrops saveFails now crops) ∧
    sweep saveFails (.ok crops) now = .ok (sweepCrops saveFails now crops) ∧
    sweep saveFails (.error e) now = .error e ∧
    runSweeps saveFails ((.error e, now) :: rest) =
      .error e :: runSweeps saveFails rest := by
  refine ⟨sweepCrops_length saveFails now crops,
          mem_sweepCrops saveFails now crops, ?_, rfl, rfl, rfl⟩
  intro c hc hbad
  induction crops with
  | nil => cases hc
  | cons d ds ih =>
    rcases List.mem_cons.mp hc with h | h
    · subst h
      simp [sweepCrops, sweepCrop, hbad]
    · exact List.mem_cons.mpr (Or.inr (ih h))

/-- C7 witness: in a two-crop sweep where the first crop's save fails, the
second crop is still processed (and the skipped one appears as a skip); a
failed query aborts only its own cycle, the following cycle still runs. -/
theorem sweep_isolates_per_crop_failures_witness :
    some (reconcile { id := 2, ctype := carrot, planted := 0, watered := 0,
                      phase := .Growing, reminded := false } 50) ∈
      sweepCrops (fun n => n == 1) 50
        [{ id := 1, ctype := carrot, planted := 0, watered := 0,
           phase := .Growing, reminded := false },
         { id := 2, ctype := carrot, planted := 0, watered := 0,
           phase := .Growing, reminded := false }] ∧
    (sweepCrops (fun n => n == 1) 50
        [{ id := 1, ctype := carrot, planted := 0, watered := 0,
           phase := .Growing, reminded := false },
         { id := 2, ctype := carrot, planted := 0, watered := 0,
           phase := .Growing, reminded := false }]).length = 2 ∧
    sweep (fun n => n == 1) (.error .notFoundError) 50 =
      (.error .notFoundError :
        Except DbError (List (Option (Crop × List FarmEvent)))) ∧
    runSweeps (fun n => n == 1) [(.error .notFoundError, 50), (.ok [], 60)] =
      [.error .notFoundError, .ok []] := by
  have h := sweep_isolates_per_crop_failures (fun n => n == 1)
    [{ id := 1, ctype := carrot, planted := 0, watered := 0,
       phase := .Growing, reminded := false },
     { id := 2, ctype := carrot, planted := 0, watered := 0,
       phase := .Growing, reminded := false }] 50 .notFoundError [(.ok [], 60)]
  refine ⟨h.2.1 _ (by simp) rfl, h.1, h.2.2.2.2.1, ?_⟩
  rw [h.2.2.2.2.2]
  rfl

/-- C3: the startup waterfall performs connect, then CropType seeding, then
Update Engine start, then HTTP listen, in that order; each later step runs
only when every earlier step succeeded, and a step failure cuts the chain
there. -/
theorem startup_runs_in_order {E : Type} (c s : Except E Unit) :
    (c = .ok () → s = .ok () →
      startupTrace c s =
        ([.connectDb, .seedCropTypes, .startUpdater, .listenHttp], none)) ∧
    (StartupAction.seedCropTypes ∈ (startupTrace c s).1 → c = .ok ()) ∧
    (StartupAction.startUpdater ∈ (startupTrace c s).1 →
      c = .ok () ∧ s = .ok ()) ∧
    (StartupAction.listenHttp ∈ (startupTrace c s).1 →
      (startupTrace c s).1 =
        [.connectDb, .seedCropTypes, .startUpdater, .listenHttp]) := by
  cases c with
  | error e => simp [startupTrace]
  | ok u =>
    cases u
    cases s with
    | error e => simp [startupTrace]
    | ok v =>
      cases v
      simp [startupTrace]

/-- C3 witness: with both fallible steps succeeding, the completed startup
actions are exactly connect, seed, updater start, listen, in order. -/
theorem startup_runs_in_order_witness :
    startupTrace (Except.ok () : Except Unit Unit) (Except.ok ()) =
      ([.connectDb, .seedCropTypes, .startUpdater, .listenHttp], none) :=
  (startup_runs_in_order (Except.ok ()) (Except.ok ())).1 rfl rfl

/-- C6: registry seeding is idempotent — a populated catalog is unchanged,
an empty one receives the fixed seed list, and a second consecutive call
leaves the catalog exactly as a single call does. -/
theorem initialData_idempotent (catalog : List CropType) :
    initialData (initialData catalog) = initialData catalog ∧
    (catalog = [] → initialData catalog = initialCropTypes) ∧
    (catalog ≠ [] → initialData catalog = catalog) := by
  refine ⟨?_, ?_, ?_⟩
  · cases catalog with
    | nil => simp [initialData, initialCropTypes]
    | cons a rest => simp [initialData]
  · intro h
    simp [h, initialData]
  · intro h
    cases catalog with
    | nil => exact absurd rfl h
    | cons a rest => simp [initialData]

/-- C6 witness: seeding an empty catalog inserts the seed list, seeding
twice equals seeding once, and a populated catalog is left unchanged. -/
theorem initialData_idempotent_witness :
    initialData (initialData []) = initialData [] ∧
    initialData [] = initialCropTypes ∧
    initialData [carrot] = [carrot] :=
  ⟨(initialData_idempotent []).1,
   (initialData_idempotent []).2.1 rfl,
   (initialData_idempotent [carrot]).2.2 (by simp)⟩

/-- C2: a water, tear-up or harvest request by a farmer who does not own
the plot fails with the ownership error no matter what the route handler
would do (hence regardless of crop phase): the userIsOwner middleware
rejects the request before the handler can run. -/
theorem mutating_routes_require_ownership {α : Type} (db : AppDb) (req : Req)
    (fid : String) (farmer : Farmer) (plot : Plot)
    (hs : req.sessionFarmerID = some fid)
    (hf : farmerGet db fid = .ok farmer)
    (hp : plotGet db req.plotParam = .ok plot)
    (hno : farmer.id ≠ plot.owner) :
    ∀ handler : Farmer → Plot → Except AppError α,
      postWater db req handler = .error .mustBeOwner ∧
      postTearUp db req handler = .error .mustBeOwner ∧
      postHarvest db req handler = .error .mustBeOwner := by
  intro handler
  have hchain : ownerPlotRoute db req handler = .error .mustBeOwner := by
    simp [ownerPlotRoute, userAuth, hs, hf, userRequired, hp, userIsOwner, hno]
  exact ⟨hchain, hchain, hchain⟩

/-- C2 witness: alice requesting water/tearup/harvest on bob's plot gets
the ownership error even though the handler would have succeeded. -/
theorem mutating_routes_require_ownership_witness :
    postWater { farmers := [{ id := "alice" }],
                plots := [{ uuid := "p1", owner := "bob" }] }
        { sessionFarmerID := some "alice", plotParam := "p1" }
        (fun _ _ => (.ok 0 : Except AppError Nat)) = .error .mustBeOwner ∧
    postTearUp { farmers := [{ id := "alice" }],
                 plots := [{ uuid := "p1", owner := "bob" }] }
        { sessionFarmerID := some "alice", plotParam := "p1" }
        (fun _ _ => (.ok 0 : Except AppError Nat)) = .error .mustBeOwner ∧
    postHarvest { farmers := [{ id := "alice" }],
                  plots := [{ uuid := "p1", owner := "bob" }] }
        { sessionFarmerID := some "alice", plotParam := "p1" }
        (fun _ _ => (.ok 0 : Except AppError Nat)) = .error .mustBeOwner :=
  mutating_routes_require_ownership
    { farmers := [{ id := "alice" }],
      plots := [{ uuid := "p1", owner := "bob" }] }
    { sessionFarmerID := some "alice", plotParam := "p1" }
    "alice" { id := "alice" } { uuid := "p1", owner := "bob" }
    rfl rfl rfl (by simp) (fun _ _ => .ok 0)

/-- C8: every state-mutating POST route (plant, water, tear-up, harvest,
buy-plot, logout) rejects a request that carries no session farmer with the
"User is required" error, before the route handler can run. -/
theorem unauthenticated_requests_rejected {α : Type} (db : AppDb) (req : Req)
    (hs : req.sessionFarmerID = none) :
    (∀ handler : Farmer → Plot → Except AppError α,
        postPlant db req handler = .error .userIsRequired ∧
        postWater db req handler = .error .userIsRequired ∧
        postTearUp db req handler = .error .userIsRequired ∧
        postHarvest db req handler = .error .userIsRequired) ∧
    (∀ handler : Farmer → Except AppError α,
        postBuyPlot db req handler = .error .userIsRequired ∧
        postLogout db req handler = .error .userIsRequired) := by
  have hchain : ∀ handler : Farmer → Plot → Except AppError α,
      ownerPlotRoute db req handler = .error .userIsRequired := by
    intro handler
    simp [ownerPlotRoute, userAuth, hs, userRequired]
  have huser : ∀ handler : Farmer → Except AppError α,
      userOnlyRoute db req handler = .error .userIsRequired := by
    intro handler
    simp [userOnlyRoute, userAuth, hs, userRequired]
  exact ⟨fun h => ⟨hchain h, hchain h, hchain h, hchain h⟩,
         fun h => ⟨huser h, huser h⟩⟩

/-- C8 witness: with no session farmer, POST water and POST logout both
fail with the "User is required" error for handlers that would succeed. -/
theorem unauthenticated_requests_rejected_witness :
    postWater { farmers := [{ id := "alice" }],
                plots := [{ uuid := "p1", owner := "alice" }] }
        { sessionFarmerID := none, plotParam := "p1" }
        (fun _ _ => (.ok 0 : Except AppError Nat)) =
      .error .userIsRequired ∧
    postLogout { farmers := [{ id := "alice" }],
                 plots := [{ uuid := "p1", owner := "alice" }] }
        { sessionFarmerID := none, plotParam := "p1" }
        (fun _ => (.ok 0 : Except AppError Nat)) =
      .error .userIsRequired := by
  have h := unauthenticated_requests_rejected (α := Nat)
    { farmers := [{ id := "alice" }],
      plots := [{ uuid := "p1", owner := "alice" }] }
    { sessionFarmerID := none, plotParam := "p1" } rfl
  exact ⟨(h.1 (fun _ _ => .ok 0)).2.1, (h.2 (fun _ => .ok 0)).2⟩

/-- C9: with no config file the resolved configuration is exactly the
built-in defaults (port 4000, address and hostname "localhost", driver
"disk") with the disk data directory defaulted; with a file, a present key
overrides the default and an absent key keeps it, and the disk data
directory is defaulted whenever the driver is "disk" and params are
absent. -/
theorem config_defaults_and_overrides (f : ConfigFile) :
    ensureParams (loadConfig none) =
      { port := 4000, address := "localhost", hostname := "localhost",
        driver := "disk", name := "Open Farm Game",
        description := "The social game that brings the excitement of subsistence farming to the social internet.",
        params := some { dir := some "/var/lib/openfarmgame/" },
        sessionSecret := none } ∧
    (f.params = none → (loadConfig (some f)).driver = "disk" →
        (ensureParams (loadConfig (some f))).params =
          some { dir := some "/var/lib/openfarmgame/" }) ∧
    (∀ p, f.port = some p → (loadConfig (some f)).port = p) ∧
    (f.port = none → (loadConfig (some f)).port = defaults.port) ∧
    (∀ a, f.address = some a → (loadConfig (some f)).address = a) ∧
    (f.address = none → (loadConfig (some f)).address = defaults.address) ∧
    (∀ hn, f.hostname = some hn → (loadConfig (some f)).hostname = hn) ∧
    (f.hostname = none →
        (loadConfig (some f)).hostname = defaults.hostname) ∧
    (∀ d, f.driver = some d → (loadConfig (some f)).driver = d) ∧
    (f.driver = none → (loadConfig (some f)).driver = defaults.driver) ∧
    (∀ n, f.name = some n → (loadConfig (some f)).name = n) ∧
    (f.name = none → (loadConfig (some f)).name = defaults.name) ∧
    (∀ d, f.description = some d → (loadConfig (some f)).description = d) ∧
    (f.description = none →
        (loadConfig (some f)).description = defaults.description) := by
  refine ⟨by decide, ?_, ?_, ?_, ?_, ?_, ?_, ?_, ?_, ?_, ?_, ?_, ?_, ?_⟩
  · intro h1 h2
    simp [loadConfig, mergeDefaults, ensureParams, h1] at h2 ⊢
    simp [h2]
  all_goals
    first
    | (intro x h
       simp [loadConfig, mergeDefaults, h])
    | (intro h
       simp [loadConfig, mergeDefaults, h])

/-- C9 witness: the no-file configuration is the defaults with the disk
data directory filled in; a file configuring only port 8080 overrides the
port and keeps the default address. -/
theorem config_defaults_and_overrides_witness :
    ensureParams (loadConfig none) =
      { port := 4000, address := "localhost", hostname := "localhost",
        driver := "disk", name := "Open Farm Game",
        description := "The social game that brings the excitement of subsistence farming to the social internet.",
        params := some { dir := some "/var/lib/openfarmgame/" },
        sessionSecret := none } ∧
    (loadConfig (some { port := some 8080, address := none, hostname := none,
                        driver := none, name := none, description := none,
                        params := none, sessionSecret := none })).port =
      8080 ∧
    (loadConfig (some { port := some 8080, address := none, hostname := none,
                        driver := none, name := none, description := none,
                        params := none, sessionSecret := none })).address =
      defaults.address := by
  have h := config_defaults_and_overrides
    { port := some 8080, address := none, hostname := none, driver := none,
      name := none, description := none, params := none,
      sessionSecret := none }
  exact ⟨h.1, h.2.2.1 8080 rfl, h.2.2.2.2.2.1 rfl⟩

/-- C10: the session middleware's secret is the configured sessionSecret
exactly when the config has that key, and the fixed string "insecure"
otherwise. -/
theorem session_secret_defaults_to_insecure (c : Config) :
    (c.sessionSecret = none → sessionSecretOf c = "insecure") ∧
    (∀ s, c.sessionSecret = some s → sessionSecretOf c = s) := by
  constructor
  · intro h
    simp [sessionSecretOf, h]
  · intro s h
    simp [sessionSecretOf, h]

/-- C10 witness: the defaults carry no sessionSecret and yield "insecure";
a configured secret is passed through. -/
theorem session_secret_defaults_to_insecure_witness :
    sessionSecretOf defaults = "insecure" ∧
    sessionSecretOf { defaults with sessionSecret := some "hunter2" } =
      "hunter2" :=
  ⟨(session_secret_defaults_to_insecure defaults).1 rfl,
   (session_secret_defaults_to_insecure
      { defaults with sessionSecret := some "hunter2" }).2 "hunter2" rfl⟩

end OpenFarmGame
